import Mathlib

/-!
Verification of the harbor-scanner-tunnel core: the Report Transformer
(pkg/scan/transformer.go) and the redis-backed Scan Job Store
(pkg/persistence/redis/store.go), shallowly embedded in Lean 4.

Go slices that may be nil are embedded as `Option (List _)`; Go maps that
may be nil as `Option (List (String × _))` association lists; fallible
operations return explicit result types.  JSON (de)serialization of the
job record is abstracted by an injective encoding (`StoredValue.job`) plus
a `malformed` constructor for undecodable stored values, which is faithful
for the round-trippable ScanJob struct.
-/

/-- Modelled from the spec: the `harbor.Severity` ordered enumeration
(the `harbor` package is not part of the provided sources).  Spec order:
Unknown < Low < Medium < High < Critical. -/
inductive Severity where
  | SevUnknown
  | SevLow
  | SevMedium
  | SevHigh
  | SevCritical
  deriving DecidableEq, Repr, Fintype

/-- The integer ordinal underlying the Go enum, realizing the spec's
total order Unknown < Low < Medium < High < Critical. -/
def Severity.ord : Severity → Nat
  | .SevUnknown => 0
  | .SevLow => 1
  | .SevMedium => 2
  | .SevHigh => 3
  | .SevCritical => 4

/-- Modelled from the spec: `tunnel.CVSSInfo` (the `tunnel` package is not
part of the provided sources); opaque scoring data that the transformer
copies verbatim and never inspects. -/
structure CVSSInfo where
  raw : String
  deriving DecidableEq, Repr

/-- `tunnel.Layer` as used by the transformer: digest and diff identifier. -/
structure TunnelLayer where
  Digest : String
  DiffID : String
  deriving DecidableEq, Repr

/-- `tunnel.Vulnerability`: the fields read by `Transform`.  `References`
and `CweIDs` are Go slices that may be nil (`none`); `CVSS` is a Go map
whose nil and empty forms both have length 0, embedded as an association
list. -/
structure TunnelVulnerability where
  VulnerabilityID : String
  PkgName : String
  InstalledVersion : String
  FixedVersion : String
  severity : String
  Description : String
  PrimaryURL : String
  References : Option (List String)
  Layer : Option TunnelLayer
  CweIDs : Option (List String)
  CVSS : List (String × CVSSInfo)
  deriving DecidableEq, Repr

/-- `harbor.Layer`. -/
structure HarborLayer where
  Digest : String
  DiffID : String
  deriving DecidableEq, Repr

/-- `harbor.Artifact`: passed through the transformer unchanged. -/
structure Artifact where
  Repository : String
  Digest : String
  MimeType : String
  deriving DecidableEq, Repr

/-- `harbor.Scanner`: static name/vendor/version metadata. -/
structure Scanner where
  Name : String
  Vendor : String
  Version : String
  deriving DecidableEq, Repr

/-- `harbor.VulnerabilityItem`.  `Links` is a Go slice (`none` = nil);
`VendorAttributes` is a Go map (`none` = nil) whose only ever-stored
value is the CVSS mapping. -/
structure VulnerabilityItem where
  ID : String
  Pkg : String
  Version : String
  FixVersion : String
  severity : Severity
  Description : String
  Links : Option (List String)
  Layer : Option HarborLayer
  CweIDs : Option (List String)
  VendorAttributes : Option (List (String × List (String × CVSSInfo)))
  deriving DecidableEq, Repr

/-- `harbor.ScanReport`; `GeneratedAt` embeds the clock reading as a Nat. -/
structure ScanReport where
  GeneratedAt : Nat
  Scanner : Scanner
  Artifact : Artifact
  severity : Severity
  Vulnerabilities : List VulnerabilityItem
  deriving DecidableEq, Repr

/-- Modelled from the spec: `etc.GetScannerMetadata` (the `etc` package is
not part of the provided sources); a static descriptor supplied by the
hosting process.  Its concrete value is irrelevant to every claim. -/
def GetScannerMetadata : Scanner :=
  { Name := "Tunnel", Vendor := "Khulnasoft Security", Version := "Unknown" }

/-- `transformer.toLinks`: a non-empty primary URL wins; a nil references
slice yields an empty (non-nil) slice; otherwise references are returned
verbatim. -/
def toLinks (primaryURL : String) (references : Option (List String)) :
    Option (List String) :=
  if primaryURL ≠ "" then
    some [primaryURL]
  else
    match references with
    | none => some []
    | some refs => some refs

/-- Association-list lookup, embedding Go map indexing `m[k]`. -/
def lookupKV {α : Type} : List (String × α) → String → Option α
  | [], _ => none
  | (k, v) :: rest, key => if k = key then some v else lookupKV rest key

/-- `tunnelToHarborSeverityMap`: the fixed five-entry lookup table. -/
def tunnelToHarborSeverityMap : List (String × Severity) :=
  [("CRITICAL", .SevCritical),
   ("HIGH", .SevHigh),
   ("MEDIUM", .SevMedium),
   ("LOW", .SevLow),
   ("UNKNOWN", .SevUnknown)]

/-- `transformer.toHarborSeverity`: table lookup, defaulting to
`SevUnknown` for an unrecognized string (the warning log is a pure
side effect and is not modelled). -/
def toHarborSeverity (severity : String) : Severity :=
  match lookupKV tunnelToHarborSeverityMap severity with
  | some harborSev => harborSev
  | none => .SevUnknown

/-- `transformer.toHarborLayer`: optional field-for-field passthrough. -/
def toHarborLayer (tLayer : Option TunnelLayer) : Option HarborLayer :=
  match tLayer with
  | none => none
  | some l => some { Digest := l.Digest, DiffID := l.DiffID }

/-- `transformer.toVendorAttributes`: `make` yields a non-nil (`some`)
empty map; the `CVSS` key is added only when the source mapping is
non-empty. -/
def toVendorAttributes (info : List (String × CVSSInfo)) :
    Option (List (String × List (String × CVSSInfo))) :=
  if info.length > 0 then some [("CVSS", info)] else some []

/-- The body of the item-construction loop in `transformer.Transform`. -/
def transformItem (v : TunnelVulnerability) : VulnerabilityItem :=
  { ID := v.VulnerabilityID
    Pkg := v.PkgName
    Version := v.InstalledVersion
    FixVersion := v.FixedVersion
    severity := toHarborSeverity v.severity
    Description := v.Description
    Links := toLinks v.PrimaryURL v.References
    Layer := toHarborLayer v.Layer
    CweIDs := v.CweIDs
    VendorAttributes := toVendorAttributes v.CVSS }

/-- The loop of `transformer.toHighestSeverity`: tracks the maximum
severity seen so far by the Go comparison `vln.Severity > highest`, and
breaks once the running maximum reaches `SevCritical`. -/
def highestLoop : List VulnerabilityItem → Severity → Severity
  | [], highest => highest
  | vln :: rest, highest =>
    if highest.ord < vln.severity.ord then
      if vln.severity = .SevCritical then vln.severity
      else highestLoop rest vln.severity
    else highestLoop rest highest

/-- `transformer.toHighestSeverity`: the loop started at `SevUnknown`. -/
def toHighestSeverity (vlns : List VulnerabilityItem) : Severity :=
  highestLoop vlns .SevUnknown

/-- `transformer.Transform`, with the injected clock reading passed as
`now`. -/
def Transform (now : Nat) (artifact : Artifact)
    (source : List TunnelVulnerability) : ScanReport :=
  let vulnerabilities := source.map transformItem
  { GeneratedAt := now
    Scanner := GetScannerMetadata
    Artifact := artifact
    severity := toHighestSeverity vulnerabilities
    Vulnerabilities := vulnerabilities }

/-- Modelled from the spec: `job.ScanJobStatus` (the `job` package is not
part of the provided sources); the spec describes an enumeration of
lifecycle states whose names are semantic roles. -/
inductive ScanJobStatus where
  | pending
  | scanning
  | finished
  | failed
  deriving DecidableEq, Repr

/-- Modelled from the spec: `job.ScanJob` (the `job` package is not part
of the provided sources); fields `id`, `status`, `error`, `report` as
named by the spec's job-record encoding, with `error` a plain string as
assigned by `UpdateStatus` and `report` optional until written. -/
structure ScanJob where
  ID : String
  status : ScanJobStatus
  error : String
  Report : Option ScanReport
  deriving DecidableEq, Repr

/-- A value held under a key in the backing store: either the
serialization of a scan job, or undecodable garbage.  This abstracts the
JSON codec: `json.Marshal` never fails for the ScanJob struct, and
`json.Unmarshal` inverts it; `malformed` covers every non-decoding
byte string. -/
inductive StoredValue where
  | job (j : ScanJob)
  | malformed (s : String)
  deriving DecidableEq, Repr

/-- `json.Marshal` on a ScanJob (total for this struct). -/
def encodeScanJob (j : ScanJob) : StoredValue := .job j

/-- `json.Unmarshal` into a ScanJob: fails exactly on malformed values,
returning the decoder's message. -/
def decodeScanJob : StoredValue → Except String ScanJob
  | .job j => .ok j
  | .malformed s => .error ("invalid character in " ++ s)

/-- Go error values produced by the store: raw redis client errors,
json decoder errors, `xerrors.Errorf "...: %w"` wrapping, and
`xerrors.Errorf` with a plain message. -/
inductive GoError where
  | redisErr (msg : String)
  | jsonErr (msg : String)
  | wrapped (ctx : String) (err : GoError)
  | errorf (msg : String)
  deriving DecidableEq, Repr

/-- The redis backend: the key-value data plus fault injection for the
client calls (`getErr`/`setErr` = `some e` makes the corresponding
command fail with backend error `e`). -/
structure Redis where
  data : List (String × StoredValue)
  getErr : Option String
  setErr : Option String
  deriving DecidableEq, Repr

/-- Association-list update used by the write commands: replaces the
binding if the key is present, appends otherwise. -/
def insertKV {α : Type} (key : String) (v : α) :
    List (String × α) → List (String × α)
  | [] => [(key, v)]
  | (k, w) :: rest =>
    if k = key then (key, v) :: rest else (k, w) :: insertKV key v rest

/-- Result of `rdb.Get(ctx, key).Result()`: a value, the `redis.Nil`
sentinel for an absent key, or a backend error. -/
inductive RedisGetResult where
  | found (v : StoredValue)
  | errNil
  | err (e : String)
  deriving DecidableEq, Repr

/-- `rdb.Get`: read-only; absent keys yield `redis.Nil`. -/
def rdbGet (r : Redis) (key : String) : RedisGetResult :=
  match r.getErr with
  | some e => .err e
  | none =>
    match lookupKV r.data key with
    | some v => .found v
    | none => .errNil

/-- `rdb.SetNX`: writes only if the key is absent; returns the new state
and the command error (`none` on success, including the no-op case where
the key already exists). -/
def rdbSetNX (r : Redis) (key : String) (v : StoredValue) :
    Redis × Option String :=
  match r.setErr with
  | some e => (r, some e)
  | none =>
    match lookupKV r.data key with
    | some _ => (r, none)
    | none => ({ r with data := insertKV key v r.data }, none)

/-- `rdb.SetXX`: writes only if the key still exists; returns the new
state and the command error (`none` on success, including the no-op case
where the key is absent). -/
def rdbSetXX (r : Redis) (key : String) (v : StoredValue) :
    Redis × Option String :=
  match r.setErr with
  | some e => (r, some e)
  | none =>
    match lookupKV r.data key with
    | some _ => ({ r with data := insertKV key v r.data }, none)
    | none => (r, none)

/-- `store.keyForScanJob`: `"{namespace}:scan-job:{job_id}"`. -/
def keyForScanJob (ns scanJobID : String) : String :=
  ns ++ ":scan-job:" ++ scanJobID

/-- Outcome of a store mutation as observed by the caller. -/
inductive OpResult where
  | ok
  | err (e : GoError)
  | panic (msg : String)
  deriving DecidableEq, Repr

/-- `store.Create`: marshal, then `SetNX` under the namespaced key,
wrapping a command error as "creating scan job". -/
def storeCreate (ns : String) (r : Redis) (scanJob : ScanJob) :
    Redis × OpResult :=
  let bytes := encodeScanJob scanJob
  let key := keyForScanJob ns scanJob.ID
  match rdbSetNX r key bytes with
  | (r2, some e) => (r2, .err (.wrapped "creating scan job" (.redisErr e)))
  | (r2, none) => (r2, .ok)

/-- `store.update` (unexported): marshal, then `SetXX` under the
namespaced key, wrapping a command error as "updating scan job". -/
def storeUpdate (ns : String) (r : Redis) (scanJob : ScanJob) :
    Redis × OpResult :=
  let bytes := encodeScanJob scanJob
  let key := keyForScanJob ns scanJob.ID
  match rdbSetXX r key bytes with
  | (r2, some e) => (r2, .err (.wrapped "updating scan job" (.redisErr e)))
  | (r2, none) => (r2, .ok)

/-- `store.Get` as the Go pair `(scanJob, err)`: `(none, none)` for an
absent key, `(none, some e)` on a backend or decoding failure,
`(some job, none)` on success.  The backend error is returned unwrapped
(`return nil, err`); the decoding failure is wrapped as
"unmarshalling scan job". -/
def storeGet (ns : String) (r : Redis) (scanJobID : String) :
    Option ScanJob × Option GoError :=
  let key := keyForScanJob ns scanJobID
  match rdbGet r key with
  | .errNil => (none, none)
  | .err e => (none, some (.redisErr e))
  | .found value =>
    match decodeScanJob value with
    | .error m => (none, some (.wrapped "unmarshalling scan job" (.jsonErr m)))
    | .ok scanJob => (some scanJob, none)

/-- `store.UpdateStatus`: fetches via `Get`, tests `scanJob == nil`
BEFORE `err != nil` (exactly as the source does — so every path on which
`Get` returns a nil record, including backend failures, reports
"not found" and the `err != nil` branch is dead), then mutates `status`
(and `error` when a variadic message is supplied) and writes back via
`update`. -/
def storeUpdateStatus (ns : String) (r : Redis) (scanJobID : String)
    (newStatus : ScanJobStatus) (error : List String) : Redis × OpResult :=
  match storeGet ns r scanJobID with
  | (none, _) => (r, .err (.errorf ("scan job " ++ scanJobID ++ " not found")))
  | (some _, some e) => (r, .err e)
  | (some scanJob, none) =>
    let scanJob :=
      { scanJob with
        status := newStatus
        error := match error with | [] => scanJob.error | m :: _ => m }
    storeUpdate ns r scanJob

/-- `store.UpdateReport`: fetches via `Get`, tests only `err != nil`,
then dereferences the record pointer — so an absent key (where `Get`
returns `(nil, nil)`) dereferences nil and panics, exactly as the source
does — and writes back via `update`. -/
def storeUpdateReport (ns : String) (r : Redis) (scanJobID : String)
    (report : ScanReport) : Redis × OpResult :=
  match storeGet ns r scanJobID with
  | (_, some e) => (r, .err e)
  | (none, none) =>
    (r, .panic "invalid memory address or nil pointer dereference")
  | (some scanJob, none) =>
    storeUpdate ns r { scanJob with Report := some report }

/-- The maximum of two severities under the spec's total order
Unknown < Low < Medium < High < Critical. -/
def maxSev (a b : Severity) : Severity :=
  if a.ord < b.ord then b else a

theorem maxSev_critical_left : ∀ x : Severity, maxSev .SevCritical x = .SevCritical := by
  decide

theorem maxSev_right_comm :
    ∀ a b c : Severity, maxSev (maxSev a b) c = maxSev (maxSev a c) b := by
  decide

theorem maxSev_left_comm :
    ∀ a b c : Severity, maxSev a (maxSev b c) = maxSev b (maxSev a c) := by
  decide

theorem maxSev_comm : ∀ a b : Severity, maxSev a b = maxSev b a := by
  decide

theorem ord_maxSev :
    ∀ a b : Severity, (maxSev a b).ord = Nat.max a.ord b.ord := by
  decide

theorem le_ord_maxSev_left : ∀ a b : Severity, a.ord ≤ (maxSev a b).ord := by
  decide

theorem foldl_maxSev_critical :
    ∀ l : List Severity, List.foldl maxSev .SevCritical l = .SevCritical
  | [] => rfl
  | x :: l => by
    rw [List.foldl_cons, maxSev_critical_left, foldl_maxSev_critical l]

/-- The loop of `toHighestSeverity`, break included, computes the fold of
`maxSev` over the items' severities. -/
theorem highestLoop_eq_foldl :
    ∀ (l : List VulnerabilityItem) (h : Severity),
      highestLoop l h =
        List.foldl maxSev h (l.map (fun v => v.severity))
  | [], _ => rfl
  | vln :: rest, h => by
    rw [List.map_cons, List.foldl_cons]
    by_cases hlt : h.ord < vln.severity.ord
    · have hmax : maxSev h vln.severity = vln.severity := if_pos hlt
      rw [highestLoop, if_pos hlt, hmax]
      by_cases hc : vln.severity = .SevCritical
      · rw [if_pos hc, hc, foldl_maxSev_critical]
      · rw [if_neg hc, highestLoop_eq_foldl rest vln.severity]
    · have hmax : maxSev h vln.severity = h := if_neg hlt
      rw [highestLoop, if_neg hlt, hmax, highestLoop_eq_foldl rest h]

theorem foldr_maxSev_shift :
    ∀ (h x : Severity) (l : List Severity),
      List.foldr maxSev (maxSev h x) l = maxSev x (List.foldr maxSev h l)
  | h, x, [] => maxSev_comm h x
  | h, x, y :: l => by
    rw [List.foldr_cons, List.foldr_cons, foldr_maxSev_shift h x l,
      maxSev_left_comm]

theorem foldl_maxSev_eq_foldr :
    ∀ (h : Severity) (l : List Severity),
      List.foldl maxSev h l = List.foldr maxSev h l
  | _, [] => rfl
  | h, x :: l => by
    rw [List.foldl_cons, List.foldr_cons, foldl_maxSev_eq_foldr (maxSev h x) l,
      foldr_maxSev_shift]

theorem foldl_maxSev_perm {l1 l2 : List Severity} (p : l1.Perm l2) :
    ∀ h : Severity, List.foldl maxSev h l1 = List.foldl maxSev h l2 := by
  induction p with
  | nil => intro _; rfl
  | cons x _ ih => intro h; rw [List.foldl_cons, List.foldl_cons, ih]
  | swap x y _ => intro h; rw [List.foldl_cons, List.foldl_cons,
      List.foldl_cons, List.foldl_cons, maxSev_right_comm]
  | trans _ _ ih1 ih2 => intro h; rw [ih1, ih2]

theorem ord_foldl_maxSev :
    ∀ (h : Severity) (l : List Severity),
      (List.foldl maxSev h l).ord =
        List.foldl Nat.max h.ord (l.map Severity.ord)
  | _, [] => rfl
  | h, x :: l => by
    rw [List.foldl_cons, List.map_cons, List.foldl_cons,
      ord_foldl_maxSev (maxSev h x) l, ord_maxSev]

theorem le_ord_maxSev_right : ∀ a b : Severity, b.ord ≤ (maxSev a b).ord := by
  decide

theorem init_le_foldl_maxSev :
    ∀ (l : List Severity) (h : Severity),
      h.ord ≤ (List.foldl maxSev h l).ord
  | [], _ => Nat.le_refl _
  | x :: l, h => by
    rw [List.foldl_cons]
    exact Nat.le_trans (le_ord_maxSev_left h x) (init_le_foldl_maxSev l (maxSev h x))

theorem mem_le_foldl_maxSev :
    ∀ (l : List Severity) (h x : Severity),
      x ∈ l → x.ord ≤ (List.foldl maxSev h l).ord := by
  intro l
  induction l with
  | nil => intro h x hx; exact absurd hx (List.not_mem_nil x)
  | cons y l ih =>
    intro h x hx
    rw [List.foldl_cons]
    rcases List.mem_cons.mp hx with rfl | hmem
    · exact Nat.le_trans (le_ord_maxSev_right h x) (init_le_foldl_maxSev l (maxSev h x))
    · exact ih (maxSev h y) x hmem

/-- A sample medium-severity report item. -/
def itemMed : VulnerabilityItem :=
  { ID := "CVE-2019-1549", Pkg := "openssl", Version := "1.1.1c-r0"
    FixVersion := "1.1.1d-r0", severity := .SevMedium
    Description := "", Links := some [], Layer := none, CweIDs := none
    VendorAttributes := some [] }

/-- A sample critical-severity report item. -/
def itemCrit : VulnerabilityItem :=
  { ID := "CVE-2019-1010022", Pkg := "glibc", Version := "2.29-r0"
    FixVersion := "", severity := .SevCritical
    Description := "", Links := some [], Layer := none, CweIDs := none
    VendorAttributes := some [] }

/-- C5: the aggregate severity computed by `toHighestSeverity` equals the
maximum of the items' severities under the total order
Unknown < Low < Medium < High < Critical (stated both as the `maxSev`
fold, which shows the short-circuit changes nothing, and on ordinals); it
is never lower than any individual item's severity, is independent of
item order, and is `SevUnknown` on the empty list. -/
theorem toHighestSeverity_is_max :
    (∀ l : List VulnerabilityItem,
      toHighestSeverity l =
        List.foldr maxSev .SevUnknown (l.map (fun v => v.severity)))
    ∧ (∀ l : List VulnerabilityItem,
      (toHighestSeverity l).ord =
        List.foldl Nat.max 0 (l.map (fun v => v.severity.ord)))
    ∧ (∀ (l : List VulnerabilityItem) (v : VulnerabilityItem),
      v ∈ l → v.severity.ord ≤ (toHighestSeverity l).ord)
    ∧ (∀ l1 l2 : List VulnerabilityItem, l1.Perm l2 →
      toHighestSeverity l1 = toHighestSeverity l2)
    ∧ toHighestSeverity [] = .SevUnknown := by
  refine ⟨?_, ?_, ?_, ?_, rfl⟩
  · intro l
    rw [toHighestSeverity, highestLoop_eq_foldl, foldl_maxSev_eq_foldr]
  · intro l
    rw [toHighestSeverity, highestLoop_eq_foldl, ord_foldl_maxSev,
      List.map_map]
    rfl
  · intro l v hv
    rw [toHighestSeverity, highestLoop_eq_foldl]
    exact mem_le_foldl_maxSev _ _ _ (List.mem_map_of_mem _ hv)
  · intro l1 l2 p
    rw [toHighestSeverity, toHighestSeverity, highestLoop_eq_foldl,
      highestLoop_eq_foldl]
    exact foldl_maxSev_perm (p.map _) _

/-- Witness for C5 at a concrete two-item list: medium then critical. -/
theorem toHighestSeverity_is_max_witness :
    itemCrit.severity.ord ≤ (toHighestSeverity [itemMed, itemCrit]).ord ∧
    toHighestSeverity [itemMed, itemCrit] =
      toHighestSeverity [itemCrit, itemMed] :=
  ⟨toHighestSeverity_is_max.2.2.1 [itemMed, itemCrit] itemCrit
      (List.Mem.tail _ (List.Mem.head _)),
   toHighestSeverity_is_max.2.2.2.1 [itemMed, itemCrit] [itemCrit, itemMed]
      (List.Perm.swap itemCrit itemMed [])⟩

/-- A sample source vulnerability with empty primary URL, absent (nil)
references and an empty CVSS mapping. -/
def vulnBare : TunnelVulnerability :=
  { VulnerabilityID := "CVE-2020-0001", PkgName := "busybox"
    InstalledVersion := "1.30.1-r2", FixedVersion := ""
    severity := "LOW", Description := "", PrimaryURL := ""
    References := none, Layer := none, CweIDs := none, CVSS := [] }

/-- C6: links of a transformed item are exactly `[primary_url]` when the
primary URL is non-empty, the references slice verbatim when the URL is
empty and references are present, empty when both are absent, and never
nil; `Transform` builds its items through `transformItem`. -/
theorem transformItem_links :
    (∀ (now : Nat) (artifact : Artifact) (source : List TunnelVulnerability),
      (Transform now artifact source).Vulnerabilities =
        source.map transformItem)
    ∧ (∀ v : TunnelVulnerability, v.PrimaryURL ≠ "" →
      (transformItem v).Links = some [v.PrimaryURL])
    ∧ (∀ (v : TunnelVulnerability) (refs : List String), v.PrimaryURL = "" →
      v.References = some refs → (transformItem v).Links = some refs)
    ∧ (∀ v : TunnelVulnerability, v.PrimaryURL = "" → v.References = none →
      (transformItem v).Links = some [])
    ∧ (∀ v : TunnelVulnerability, (transformItem v).Links.isSome = true) := by
  refine ⟨fun _ _ _ => rfl, ?_, ?_, ?_, ?_⟩
  · intro v h
    simp [transformItem, toLinks, h]
  · intro v refs h hr
    simp [transformItem, toLinks, h, hr]
  · intro v h hr
    simp [transformItem, toLinks, h, hr]
  · intro v
    simp only [transformItem]
    unfold toLinks
    by_cases h : v.PrimaryURL ≠ ""
    · rw [if_pos h]; rfl
    · rw [if_neg h]; cases v.References <;> rfl

/-- Witness for C6: empty primary URL and nil references yield `some []`. -/
theorem transformItem_links_witness :
    vulnBare.PrimaryURL = "" ∧ vulnBare.References = none ∧
    (transformItem vulnBare).Links = some [] :=
  ⟨rfl, rfl, transformItem_links.2.2.2.1 vulnBare rfl rfl⟩

/-- C7: a transformed item always carries a (non-nil) vendor-attributes
mapping, and that mapping has a `CVSS` key exactly when the source CVSS
mapping is non-empty. -/
theorem transformItem_vendor_attributes :
    ∀ v : TunnelVulnerability, ∃ m,
      (transformItem v).VendorAttributes = some m ∧
      ((lookupKV m "CVSS").isSome = true ↔ v.CVSS ≠ []) := by
  intro v
  match hc : v.CVSS with
  | [] =>
    refine ⟨[], ?_, ?_⟩
    · simp [transformItem, toVendorAttributes, hc]
    · simp [lookupKV, hc]
  | p :: rest =>
    refine ⟨[("CVSS", v.CVSS)], ?_, ?_⟩
    · simp [transformItem, toVendorAttributes, hc]
    · simp [lookupKV, hc]

/-- C8: the severity-string mapping is the fixed five-entry table and is
total: every string outside the table maps to `SevUnknown`. -/
theorem toHarborSeverity_table :
    toHarborSeverity "CRITICAL" = .SevCritical ∧
    toHarborSeverity "HIGH" = .SevHigh ∧
    toHarborSeverity "MEDIUM" = .SevMedium ∧
    toHarborSeverity "LOW" = .SevLow ∧
    toHarborSeverity "UNKNOWN" = .SevUnknown ∧
    (∀ s : String, s ≠ "CRITICAL" → s ≠ "HIGH" → s ≠ "MEDIUM" →
      s ≠ "LOW" → s ≠ "UNKNOWN" → toHarborSeverity s = .SevUnknown) := by
  refine ⟨rfl, rfl, rfl, rfl, rfl, ?_⟩
  intro s h1 h2 h3 h4 h5
  simp [toHarborSeverity, tunnelToHarborSeverityMap, lookupKV,
    Ne.symm h1, Ne.symm h2, Ne.symm h3, Ne.symm h4, Ne.symm h5]

/-- Witness for C8: the unrecognized string "WHATEVER" maps to
`SevUnknown`. -/
theorem toHarborSeverity_table_witness :
    toHarborSeverity "WHATEVER" = .SevUnknown :=
  toHarborSeverity_table.2.2.2.2.2 "WHATEVER" (by decide) (by decide)
    (by decide) (by decide) (by decide)

/-- Sample deployment namespace. -/
def nsS : String := "harbor.scanner.tunnel:store"

/-- Sample job record as first created. -/
def job1 : ScanJob :=
  { ID := "job-1", status := .pending, error := "", Report := none }

/-- A second job record carrying the same id with different contents. -/
def job1Retry : ScanJob :=
  { ID := "job-1", status := .failed, error := "boom", Report := none }

/-- An empty, healthy backend. -/
def redis0 : Redis := { data := [], getErr := none, setErr := none }

/-- A healthy backend already holding `job1` under its key. -/
def redis1 : Redis :=
  { data := [(keyForScanJob nsS "job-1", .job job1)]
    getErr := none, setErr := none }

/-- A backend holding `job1` whose GET command fails. -/
def redisDown : Redis :=
  { data := [(keyForScanJob nsS "job-1", .job job1)]
    getErr := some "connection refused", setErr := none }

/-- A healthy backend holding an undecodable value under job-1's key. -/
def redisCorrupt : Redis :=
  { data := [(keyForScanJob nsS "job-1", .malformed "oops")]
    getErr := none, setErr := none }

/-- A sample normalized report. -/
def report0 : ScanReport :=
  { GeneratedAt := 0, Scanner := GetScannerMetadata
    Artifact := { Repository := "library/golang", Digest := "sha256:72c9"
                  MimeType := "application/vnd.oci.image.manifest.v1+json" }
    severity := .SevCritical, Vulnerabilities := [itemCrit] }

/-- Counterexample to C1: creating the same job id twice, the second
`Create` returns success (`SetNX` silently does not set and its command
error is nil), not a Conflict-class error — while the stored record does
remain the first one. -/
theorem create_duplicate_counterexample :
    (storeCreate nsS (storeCreate nsS redis0 job1).1 job1Retry).2 = .ok ∧
    lookupKV (storeCreate nsS (storeCreate nsS redis0 job1).1 job1Retry).1.data
      (keyForScanJob nsS "job-1") = some (.job job1) :=
  ⟨rfl, rfl⟩

/-- C1 (amended): when the key already exists, a second `Create` is a
silent no-op — it returns success, reports no Conflict-class error, and
leaves the backend state (hence the first record) unchanged. -/
theorem create_existing_key_silent_noop :
    ∀ (ns : String) (r : Redis) (j : ScanJob) (v : StoredValue),
      r.setErr = none →
      lookupKV r.data (keyForScanJob ns j.ID) = some v →
      storeCreate ns r j = (r, .ok) := by
  intro ns r j v hs hl
  simp [storeCreate, rdbSetNX, encodeScanJob, hs, hl]

/-- Witness for the amended C1 at a backend already holding job-1. -/
theorem create_existing_key_silent_noop_witness :
    redis1.setErr = none ∧
    lookupKV redis1.data (keyForScanJob nsS job1Retry.ID) = some (.job job1) ∧
    storeCreate nsS redis1 job1Retry = (redis1, .ok) :=
  ⟨rfl, rfl, create_existing_key_silent_noop nsS redis1 job1Retry (.job job1) rfl rfl⟩

/-- C2 (code bug): on a job id absent from the store, `UpdateReport`
checks only the error of the inner `Get` — which is nil for an absent
key — and then dereferences the nil record, panicking instead of
returning a NotFound-class error; no write happens. -/
theorem update_report_absent_panics :
    storeUpdateReport nsS redis0 "job-1" report0 =
      (redis0, .panic "invalid memory address or nil pointer dereference") :=
  rfl

/-- C3 (code bug): when the backend GET fails during `UpdateStatus`, the
`scanJob == nil` test runs before the `err != nil` test, so the wrapped
backend error is replaced by a "scan job not found" error — the backend
failure is masked, even though the record is present. -/
theorem update_status_masks_backend_error :
    storeUpdateStatus nsS redisDown "job-1" .failed [] =
      (redisDown, .err (.errorf "scan job job-1 not found")) :=
  rfl

/-- C4: `UpdateStatus` on an id absent from a healthy backend fails with
the NotFound-class error "scan job {id} not found" and writes nothing
(the backend state is returned unchanged). -/
theorem update_status_absent_not_found :
    ∀ (ns : String) (r : Redis) (id : String) (st : ScanJobStatus)
      (msgs : List String),
      r.getErr = none →
      lookupKV r.data (keyForScanJob ns id) = none →
      storeUpdateStatus ns r id st msgs =
        (r, .err (.errorf ("scan job " ++ id ++ " not found"))) := by
  intro ns r id st msgs hg hl
  simp [storeUpdateStatus, storeGet, rdbGet, hg, hl]

/-- Witness for C4 on the empty backend. -/
theorem update_status_absent_not_found_witness :
    redis0.getErr = none ∧
    lookupKV redis0.data (keyForScanJob nsS "job-1") = none ∧
    storeUpdateStatus nsS redis0 "job-1" .failed [] =
      (redis0, .err (.errorf "scan job job-1 not found")) :=
  ⟨rfl, rfl, update_status_absent_not_found nsS redis0 "job-1" .failed [] rfl rfl⟩

/-- C9: on a healthy backend, `Get` returns the explicit absent pair
`(none, none)` for a missing key (not an error), a wrapped
Corruption-class error for an undecodable stored value, and the decoded
record for a well-formed one. -/
theorem get_semantics :
    ∀ (ns : String) (r : Redis) (id : String),
      r.getErr = none →
      (lookupKV r.data (keyForScanJob ns id) = none →
        storeGet ns r id = (none, none))
      ∧ (∀ s : String,
        lookupKV r.data (keyForScanJob ns id) = some (.malformed s) →
        storeGet ns r id =
          (none, some (.wrapped "unmarshalling scan job"
            (.jsonErr ("invalid character in " ++ s)))))
      ∧ (∀ j : ScanJob,
        lookupKV r.data (keyForScanJob ns id) = some (.job j) →
        storeGet ns r id = (some j, none)) := by
  intro ns r id hg
  refine ⟨fun hl => ?_, fun s hl => ?_, fun j hl => ?_⟩ <;>
    simp [storeGet, rdbGet, decodeScanJob, hg, hl]

/-- Witness for C9: absent key and corrupted key on a concrete backend. -/
theorem get_semantics_witness :
    redisCorrupt.getErr = none ∧
    lookupKV redisCorrupt.data (keyForScanJob nsS "job-2") = none ∧
    storeGet nsS redisCorrupt "job-2" = (none, none) ∧
    lookupKV redisCorrupt.data (keyForScanJob nsS "job-1") =
      some (.malformed "oops") ∧
    storeGet nsS redisCorrupt "job-1" =
      (none, some (.wrapped "unmarshalling scan job"
        (.jsonErr "invalid character in oops"))) :=
  ⟨rfl, rfl, (get_semantics nsS redisCorrupt "job-2" rfl).1 rfl, rfl,
   (get_semantics nsS redisCorrupt "job-1" rfl).2.1 "oops" rfl⟩

theorem lookupKV_insertKV_self :
    ∀ {α : Type} (l : List (String × α)) (k : String) (v : α),
      lookupKV (insertKV k v l) k = some v := by
  intro α l k v
  induction l with
  | nil => simp [insertKV, lookupKV]
  | cons p rest ih =>
    obtain ⟨k', w⟩ := p
    by_cases h : k' = k
    · simp [insertKV, h, lookupKV]
    · simp [insertKV, h, lookupKV, ih]

/-- C10: a successful `UpdateStatus` on a stored job rewrites the record
with only `status` changed — plus `error` exactly when a message is
supplied — keeping `id` and `report`; the new record is what the key then
holds. -/
theorem update_status_frame :
    ∀ (ns : String) (r : Redis) (id : String) (st : ScanJobStatus)
      (msgs : List String) (j : ScanJob),
      r.getErr = none → r.setErr = none → j.ID = id →
      lookupKV r.data (keyForScanJob ns id) = some (.job j) →
      storeUpdateStatus ns r id st msgs =
        ({ r with data := (insertKV (keyForScanJob ns id)
            (.job { ID := j.ID, status := st
                    error := match msgs with | [] => j.error | m :: _ => m
                    Report := j.Report }) r.data) }, .ok)
      ∧ lookupKV (storeUpdateStatus ns r id st msgs).1.data
          (keyForScanJob ns id) =
        some (.job { ID := j.ID, status := st
                     error := match msgs with | [] => j.error | m :: _ => m
                     Report := j.Report }) := by
  intro ns r id st msgs j hg hs hid hl
  have hget : storeGet ns r id = (some j, none) := by
    simp [storeGet, rdbGet, decodeScanJob, hg, hl]
  have hmain : storeUpdateStatus ns r id st msgs =
      ({ r with data := (insertKV (keyForScanJob ns id)
          (.job { ID := j.ID, status := st
                  error := match msgs with | [] => j.error | m :: _ => m
                  Report := j.Report }) r.data) }, .ok) := by
    simp [storeUpdateStatus, hget, storeUpdate, rdbSetXX, encodeScanJob,
      hs, hid, hl]
  refine ⟨hmain, ?_⟩
  rw [hmain]
  exact lookupKV_insertKV_self _ _ _

/-- Witness for C10: updating stored job-1 to failed with a message. -/
theorem update_status_frame_witness :
    redis1.getErr = none ∧ redis1.setErr = none ∧ job1.ID = "job-1" ∧
    lookupKV redis1.data (keyForScanJob nsS "job-1") = some (.job job1) ∧
    (storeUpdateStatus nsS redis1 "job-1" .failed ["scan failed"] =
        ({ redis1 with data := (insertKV (keyForScanJob nsS "job-1")
            (.job { ID := job1.ID, status := .failed
                    error := "scan failed", Report := job1.Report })
            redis1.data) }, .ok)
      ∧ lookupKV (storeUpdateStatus nsS redis1 "job-1" .failed
          ["scan failed"]).1.data (keyForScanJob nsS "job-1") =
        some (.job { ID := job1.ID, status := .failed
                     error := "scan failed", Report := job1.Report })) :=
  ⟨rfl, rfl, rfl, rfl,
   update_status_frame nsS redis1 "job-1" .failed ["scan failed"] job1
     rfl rfl rfl rfl⟩
